import Mathlib

/-!
Shallow embedding of the data-processing core of the SuitPagosSap repository
(`src/procesos.py`, class `SAPDataProcessor`, and `src/app.py`, method
`aplicar_filtros_completos`).

Modelling conventions:
* A pandas cell value is a `Value`: a finite number (`num`, as a rational —
  pandas floats in the relevant paths are exact decimals), a string, a
  date (`date`, an abstract totally-ordered integer code standing for a
  Timestamp), or `null` (NaN / NaT / None).
* A `Row` is an association list from column names to values; a `DataFrame`
  carries a list of column names and a list of rows.  Accessing a column
  that is not in `cols` fails, mirroring pandas `KeyError`.
* Operations that can raise a Python exception are given in a `_core`
  version returning `Except String _`; the public function mirrors the
  Python `try/except` wrapper (return the fail-open default, or re-wrap).
* Arithmetic on non-numeric values fails (`TypeError`); sums skip `null`
  the way pandas `Series.sum` skips NaN.
* `pd.to_numeric(errors="coerce")` / `pd.to_datetime(errors="coerce")` are
  modelled with simple explicit parsers for decimal literals and
  `YYYY-MM-DD` dates; an unparseable value becomes `null` (NaN / NaT).
  Coercing a numeric cell with `to_datetime` is modelled as `null`
  (the exotic pandas epoch-interpretation of bare numbers is out of scope
  for every claim).
-/

inductive Value where
  | num (q : ℚ)
  | str (s : String)
  | date (d : ℤ)
  | null
  deriving DecidableEq, Repr

abbrev Row := List (String × Value)

/-- Reading a cell of a row: the first binding for the column, else `null`. -/
def Row.cell (r : Row) (c : String) : Value :=
  match r.find? (fun p => p.1 == c) with
  | some p => p.2
  | none => Value.null

/-- Overwrite (or append) the binding of column `c` in a row. -/
def Row.set (r : Row) (c : String) (v : Value) : Row :=
  if r.any (fun p => p.1 == c) then
    r.map (fun p => if p.1 == c then (p.1, v) else p)
  else
    r ++ [(c, v)]

structure DataFrame where
  cols : List String
  rows : List Row
  deriving DecidableEq, Repr

/-- `df[c]` as a series: `KeyError` when the column is absent. -/
def DataFrame.col (df : DataFrame) (c : String) : Except String (List Value) :=
  if c ∈ df.cols then .ok (df.rows.map (fun r => r.cell c)) else .error ("KeyError: " ++ c)

/-- `df[c] = f(df[c])` column assignment (adds the column when absent). -/
def DataFrame.mapCol (df : DataFrame) (c : String) (f : Value → Value) : DataFrame :=
  ⟨if c ∈ df.cols then df.cols else df.cols ++ [c],
   df.rows.map (fun r => r.set c (f (r.cell c)))⟩

/-- `df.dropna(subset=[c])`. -/
def DataFrame.dropnaCol (df : DataFrame) (c : String) : DataFrame :=
  ⟨df.cols, df.rows.filter (fun r => !(r.cell c == Value.null))⟩

def Value.isNum : Value → Bool
  | .num _ => true
  | _ => false

def Value.toRat : Value → ℚ
  | .num q => q
  | _ => 0

/-- Elementwise product of two series (`ventas_df["Cantidad"] * ventas_df["Valor_Neto"]`):
NaN propagates, non-numeric operands raise `TypeError`. -/
def prodSeries : List Value → List Value → Except String (List Value)
  | [], _ => .ok []
  | _, [] => .ok []
  | v :: vs, w :: ws => do
    let head ←
      match v, w with
      | .num a, .num b => Except.ok (Value.num (a * b))
      | .null, _ => Except.ok Value.null
      | _, .null => Except.ok Value.null
      | _, _ => Except.error "TypeError: mul"
    let tail ← prodSeries vs ws
    .ok (head :: tail)

/-- `Series.sum()` with pandas default `skipna=True`; non-numeric entries raise. -/
def sumSeries : List Value → Except String ℚ
  | [] => .ok 0
  | v :: vs => do
    let rest ← sumSeries vs
    match v with
    | .num q => .ok (q + rest)
    | .null => .ok rest
    | _ => .error "TypeError: sum"

/-- Decimal-literal parser standing for the numeric coercion of
`pd.to_numeric(errors="coerce")` on strings. -/
def digitsToNat (l : List Char) : Nat :=
  l.foldl (fun a c => a * 10 + (c.toNat - 48)) 0

def parseNum (s : String) : Option ℚ :=
  let l := s.toList
  let (neg, l1) :=
    match l with
    | '-' :: rest => (true, rest)
    | _ => (false, l)
  let intPart := l1.takeWhile Char.isDigit
  let rest := l1.dropWhile Char.isDigit
  if intPart.isEmpty then none
  else
    let base : ℚ := digitsToNat intPart
    match rest with
    | [] => some (if neg then -base else base)
    | '.' :: frac =>
      if !frac.isEmpty && frac.all Char.isDigit then
        let q : ℚ := base + (digitsToNat frac : ℚ) / ((10 : ℚ) ^ frac.length)
        some (if neg then -q else q)
      else none
    | _ => none

/-- `YYYY-MM-DD` parser standing for `pd.to_datetime(errors="coerce")` on
strings; the resulting code is monotone in the calendar order. -/
def parseDate (s : String) : Option ℤ :=
  match s.splitOn "-" with
  | [y, m, d] =>
    if !y.isEmpty && y.all Char.isDigit && !m.isEmpty && m.all Char.isDigit &&
        !d.isEmpty && d.all Char.isDigit then
      let mn := digitsToNat m.toList
      let dn := digitsToNat d.toList
      if 1 ≤ mn && mn ≤ 12 && 1 ≤ dn && dn ≤ 31 then
        some ((digitsToNat y.toList : ℤ) * 10000 + (mn : ℤ) * 100 + (dn : ℤ))
      else none
    else none
  | _ => none

/-- `pd.to_numeric(x, errors="coerce")` on one cell. -/
def to_numeric_coerce : Value → Value
  | .num q => .num q
  | .str s =>
    match parseNum s with
    | some q => .num q
    | none => .null
  | .date _ => .null
  | .null => .null

/-- `.fillna(0)` on one cell. -/
def fillna0 : Value → Value
  | .null => .num 0
  | v => v

/-- `pd.to_datetime(x, errors="coerce")` on one cell. -/
def to_datetime_coerce : Value → Value
  | .date d => .date d
  | .str s =>
    match parseDate s with
    | some d => .date d
    | none => .null
  | .num _ => .null
  | .null => .null

/-! ## `SAPDataProcessor._limpiar_datos` (procesos.py lines 80-100) -/

def limpiar_ventas (ventas_df : DataFrame) : DataFrame :=
  let v1 := ventas_df.dropnaCol "Doc_Venta"
  let v2 := v1.mapCol "Cantidad" (fun x => fillna0 (to_numeric_coerce x))
  let v3 := v2.mapCol "Valor_Neto" (fun x => fillna0 (to_numeric_coerce x))
  if "Fecha_Doc" ∈ v3.cols then v3.mapCol "Fecha_Doc" to_datetime_coerce else v3

def limpiar_pagos (pagos_df : DataFrame) : DataFrame :=
  let p1 := pagos_df.dropnaCol "Referencia_Factura"
  let p2 := p1.mapCol "Monto_Pago" (fun x => fillna0 (to_numeric_coerce x))
  if "Fecha_Pago" ∈ p2.cols then p2.mapCol "Fecha_Pago" to_datetime_coerce else p2

def limpiar_stock (stock_df : DataFrame) : DataFrame :=
  stock_df.mapCol "Stock_Total" (fun x => fillna0 (to_numeric_coerce x))

def limpiar_datos (ventas_df pagos_df stock_df : DataFrame) :
    DataFrame × DataFrame × DataFrame :=
  (limpiar_ventas ventas_df, limpiar_pagos pagos_df, limpiar_stock stock_df)

/-! ## `SAPDataProcessor._validar_estructura_datos` and `cargar_datos`
(procesos.py lines 23-78).  The filesystem is a list of the file names that
exist under the data path, and `pd.read_excel` is abstracted by passing the
three tables that a successful read would produce. -/

def columnas_requeridas_ventas : List String :=
  ["Doc_Venta", "Fecha_Doc", "Cliente", "Nombre_Cliente", "Canal",
   "Producto", "Cantidad", "Valor_Neto", "Moneda"]

def columnas_requeridas_pagos : List String :=
  ["Doc_Pago", "Fecha_Pago", "Cliente", "Nombre_Cliente", "Banco",
   "Monto_Pago", "Moneda", "Referencia_Factura"]

def columnas_requeridas_stock : List String :=
  ["Material", "Descripción", "Centro", "Tipo_Almacén", "Stock_Total",
   "Unidad_Medida"]

def validar_estructura_datos (ventas_df pagos_df stock_df : DataFrame) :
    Except String Unit := do
  let revisar := fun (nombre : String) (req : List String) (df : DataFrame) =>
    let faltantes := req.filter (fun c => !(df.cols.contains c))
    if faltantes.isEmpty then Except.ok ()
    else Except.error ("Columnas faltantes en " ++ nombre)
  revisar "ventas" columnas_requeridas_ventas ventas_df
  revisar "pagos" columnas_requeridas_pagos pagos_df
  revisar "stock" columnas_requeridas_stock stock_df

inductive LoadError where
  | fileNotFound (msg : String)
  | generic (msg : String)
  deriving DecidableEq, Repr

/-- The fixed dictionary of required input files, in insertion order. -/
def archivos : List (String × String) :=
  [("ventas", "F_ventas_sap.xlsx"),
   ("pagos", "F_pagos_clientes.xlsx"),
   ("stock", "MM_stock_actual.xlsx")]

/-- The existence loop of `cargar_datos`: the name of the first required
file absent from the filesystem, if any. -/
def primerFaltante (fs : List String) : Option String :=
  (archivos.map Prod.snd).find? (fun a => !(fs.contains a))

/-- `SAPDataProcessor.cargar_datos`: check the three files exist (raising
`FileNotFoundError` at the first missing one, re-raised unwrapped), read
them, validate the schema and clean; any non-`FileNotFoundError` exception
is wrapped into the generic load error. -/
def cargar_datos (fs : List String) (ventas_df pagos_df stock_df : DataFrame) :
    Except LoadError (DataFrame × DataFrame × DataFrame) :=
  match primerFaltante fs with
  | some archivo => .error (.fileNotFound ("No se encontró el archivo: " ++ archivo))
  | none =>
    match validar_estructura_datos ventas_df pagos_df stock_df with
    | .error e => .error (.generic ("Error al cargar los archivos: " ++ e))
    | .ok _ => .ok (limpiar_datos ventas_df pagos_df stock_df)

/-! ## `SAPDataProcessor.aplicar_filtros` (procesos.py lines 102-128) -/

/-- Python truthiness of an optional list argument (`if productos:`). -/
def truthyList (o : Option (List Value)) : Bool :=
  match o with
  | none => false
  | some l => !l.isEmpty

/-- `df[df[c].isin(vals)]`. -/
def filtroIsin (df : DataFrame) (c : String) (vals : List Value) :
    Except String DataFrame :=
  if c ∈ df.cols then
    .ok ⟨df.cols, df.rows.filter (fun r => decide (r.cell c ∈ vals))⟩
  else .error ("KeyError: " ++ c)

/-- `df[df[c] == v]`. -/
def filtroEq (df : DataFrame) (c : String) (v : Value) : Except String DataFrame :=
  if c ∈ df.cols then
    .ok ⟨df.cols, df.rows.filter (fun r => r.cell c == v)⟩
  else .error ("KeyError: " ++ c)

/-- The `if moneda and moneda != "Todas":` statement of `aplicar_filtros`
(truthiness of a string is non-emptiness). -/
def pasoMoneda (df : DataFrame) (moneda : Option String) : Except String DataFrame :=
  match moneda with
  | some m => if m ≠ "" ∧ m ≠ "Todas" then filtroEq df "Moneda" (.str m) else .ok df
  | none => .ok df

/-- Body of the `try` block of `aplicar_filtros`, as a chain of binds
(each guard mirrors one `if` statement of the Python body). -/
def aplicar_filtros_core (df : DataFrame) (productos clientes : Option (List Value))
    (moneda : Option String) : Except String DataFrame :=
  (if truthyList productos then filtroIsin df "Producto" (productos.getD [])
   else .ok df) >>= fun df1 =>
  (if truthyList clientes then filtroIsin df1 "Nombre_Cliente" (clientes.getD [])
   else .ok df1) >>= fun df2 =>
  pasoMoneda df2 moneda >>= fun df3 =>
  .ok df3

/-- `SAPDataProcessor.aplicar_filtros`: on any exception inside the `try`
block, log and return the original input `df`. -/
def aplicar_filtros (df : DataFrame) (productos clientes : Option (List Value))
    (moneda : Option String) : DataFrame :=
  match aplicar_filtros_core df productos clientes moneda with
  | .ok r => r
  | .error _ => df

/-! ## `SAPDataProcessor.calcular_kpis` (procesos.py lines 130-150) -/

/-- Body of the `try` block of `calcular_kpis`. -/
def calcular_kpis_core (ventas_df pagos_df : DataFrame) :
    Except String (ℚ × ℚ × ℚ) := do
  let cantidades ← ventas_df.col "Cantidad"
  let valores ← ventas_df.col "Valor_Neto"
  let productos ← prodSeries cantidades valores
  let total_ventas ← sumSeries productos
  let docsCol ← ventas_df.col "Doc_Venta"
  let docs_ventas := docsCol.dedup
  let _ ← pagos_df.col "Referencia_Factura"
  let pagos_filtrados : DataFrame :=
    ⟨pagos_df.cols,
     pagos_df.rows.filter (fun r => decide (r.cell "Referencia_Factura" ∈ docs_ventas))⟩
  let montos ← pagos_filtrados.col "Monto_Pago"
  let total_pagado ← sumSeries montos
  .ok (total_ventas, total_pagado, total_ventas - total_pagado)

/-- `SAPDataProcessor.calcular_kpis`: on any exception, log and return
`(0.0, 0.0, 0.0)`. -/
def calcular_kpis (ventas_df pagos_df : DataFrame) : ℚ × ℚ × ℚ :=
  match calcular_kpis_core ventas_df pagos_df with
  | .ok t => t
  | .error _ => (0, 0, 0)

/-! ## `SAPDataProcessor.generar_reporte_excel` and `_crear_hoja_resumen`
(procesos.py lines 153-273).  The produced workbook is modelled as the list
of its sheets in order, each a name together with the `DataFrame` written to
it; cell styling and column widths carry no data and are not modelled. -/

/-- Boolean filtering where the per-row comparison itself can raise
(e.g. `stock_df["Stock_Total"] > 0` on a non-numeric cell). -/
def filterExcept (p : Row → Except String Bool) : List Row → Except String (List Row)
  | [] => .ok []
  | r :: rs => do
    let keep ← p r
    let rest ← filterExcept p rs
    .ok (if keep then r :: rest else rest)

/-- `x > 0` on one pandas cell: numbers compare, NaN compares `False`,
anything else raises `TypeError`. -/
def gtZeroValue : Value → Except String Bool
  | .num q => .ok (decide (0 < q))
  | .null => .ok false
  | _ => .error "TypeError: cmp"

/-- `len(df[c].unique())`. -/
def nUnique (df : DataFrame) (c : String) : Except String Nat := do
  let vals ← df.col c
  .ok vals.dedup.length

/-- `_crear_hoja_resumen`, as the `Resumen` sheet it writes (the writing
itself and the formatting are side effects outside the model).  Each
`Valor` entry that touches a column is fallible exactly where the Python
expression is (`df.empty` guards first, then column access, then the
comparison / the sum). -/
def crear_hoja_resumen (ventas_df pagos_df stock_df : DataFrame) :
    Except String DataFrame :=
  let kpis := calcular_kpis ventas_df pagos_df
  (if ventas_df.rows.isEmpty then .ok 0
   else nUnique ventas_df "Producto") >>= fun productos_unicos =>
  (if ventas_df.rows.isEmpty then .ok 0
   else nUnique ventas_df "Nombre_Cliente") >>= fun clientes_unicos =>
  (if stock_df.rows.isEmpty then .ok 0
   else stock_df.col "Stock_Total" >>= fun _ =>
     filterExcept (fun r => gtZeroValue (r.cell "Stock_Total")) stock_df.rows >>=
       fun kept => .ok kept.length) >>= fun materiales_en_stock =>
  (if stock_df.rows.isEmpty then .ok 0
   else nUnique stock_df "Centro") >>= fun centros =>
  (if stock_df.rows.isEmpty then .ok (0 : ℚ)
   else stock_df.col "Stock_Total" >>= sumSeries) >>= fun stock_total =>
  .ok ⟨["Métrica", "Valor"],
    [[("Métrica", Value.str "Total Ventas"), ("Valor", Value.num kpis.1)],
     [("Métrica", Value.str "Total Pagado"), ("Valor", Value.num kpis.2.1)],
     [("Métrica", Value.str "Pendiente por Cobrar"), ("Valor", Value.num kpis.2.2)],
     [("Métrica", Value.str "Productos Únicos"), ("Valor", Value.num productos_unicos)],
     [("Métrica", Value.str "Clientes Únicos"), ("Valor", Value.num clientes_unicos)],
     [("Métrica", Value.str "Transacciones de Venta"),
      ("Valor", Value.num ventas_df.rows.length)],
     [("Métrica", Value.str "Transacciones de Pago"),
      ("Valor", Value.num pagos_df.rows.length)],
     [("Métrica", Value.str "Materiales en Stock"), ("Valor", Value.num materiales_en_stock)],
     [("Métrica", Value.str "Centros de Distribución"), ("Valor", Value.num centros)],
     [("Métrica", Value.str "Stock Total (Unidades)"), ("Valor", Value.num stock_total)]]⟩

/-- Body of the `try` block of `generar_reporte_excel`. -/
def generar_reporte_excel_core (ventas_df pagos_df stock_df : DataFrame)
    (incluir_resumen : Bool) : Except String (List (String × DataFrame)) := do
  let hojas := [("Ventas", ventas_df), ("Pagos", pagos_df), ("Stock", stock_df)]
  if incluir_resumen then do
    let resumen ← crear_hoja_resumen ventas_df pagos_df stock_df
    .ok (hojas ++ [("Resumen", resumen)])
  else .ok hojas

/-- `SAPDataProcessor.generar_reporte_excel`: any exception is re-raised
wrapped in the generic report error message. -/
def generar_reporte_excel (ventas_df pagos_df stock_df : DataFrame)
    (incluir_resumen : Bool) : Except String (List (String × DataFrame)) :=
  match generar_reporte_excel_core ventas_df pagos_df stock_df incluir_resumen with
  | .ok hojas => .ok hojas
  | .error e => .error ("Error al generar el reporte: " ++ e)

/-! ## `SAPDashboard.aplicar_filtros_completos` (app.py lines 182-207) -/

/-- `df[c] >= bound` on one cell of a datetime column: NaT compares `False`,
a non-date non-null cell raises `TypeError`. -/
def cmpDateGe (v : Value) (b : ℤ) : Except String Bool :=
  match v with
  | .date d => .ok (decide (b ≤ d))
  | .null => .ok false
  | _ => .error "TypeError: date cmp"

/-- `df[c] <= bound` on one cell of a datetime column. -/
def cmpDateLe (v : Value) (b : ℤ) : Except String Bool :=
  match v with
  | .date d => .ok (decide (d ≤ b))
  | .null => .ok false
  | _ => .error "TypeError: date cmp"

/-- `df[df["Fecha_Doc"] >= pd.to_datetime(bound)]` and the `<=` twin. -/
def filtroFecha (df : DataFrame) (cmp : Value → Except String Bool) :
    Except String DataFrame :=
  if "Fecha_Doc" ∈ df.cols then do
    let kept ← filterExcept (fun r => cmp (r.cell "Fecha_Doc")) df.rows
    .ok ⟨df.cols, kept⟩
  else .error "KeyError: Fecha_Doc"

/-- The `if fecha_desde:` statement of `aplicar_filtros_completos` (a date
object is always truthy in Python). -/
def pasoFechaDesde (df : DataFrame) (fecha_desde : Option ℤ) : Except String DataFrame :=
  match fecha_desde with
  | some d => filtroFecha df (fun v => cmpDateGe v d)
  | none => .ok df

/-- The `if fecha_hasta:` statement of `aplicar_filtros_completos`. -/
def pasoFechaHasta (df : DataFrame) (fecha_hasta : Option ℤ) : Except String DataFrame :=
  match fecha_hasta with
  | some d => filtroFecha df (fun v => cmpDateLe v d)
  | none => .ok df

/-- Body of the `try` block of `aplicar_filtros_completos`.  Note the inner
call to `aplicar_filtros` already catches its own errors. -/
def aplicar_filtros_completos_core (ventas_df : DataFrame)
    (productos clientes canales : Option (List Value)) (moneda : Option String)
    (fecha_desde fecha_hasta : Option ℤ) : Except String DataFrame :=
  let df1 := aplicar_filtros ventas_df productos clientes moneda
  (if truthyList canales then filtroIsin df1 "Canal" (canales.getD [])
   else .ok df1) >>= fun df2 =>
  pasoFechaDesde df2 fecha_desde >>= fun df3 =>
  pasoFechaHasta df3 fecha_hasta >>= fun df4 =>
  .ok df4

/-- `SAPDashboard.aplicar_filtros_completos`: on any exception inside the
`try` block, log and return the original `ventas_df`. -/
def aplicar_filtros_completos (ventas_df : DataFrame)
    (productos clientes canales : Option (List Value)) (moneda : Option String)
    (fecha_desde fecha_hasta : Option ℤ) : DataFrame :=
  match aplicar_filtros_completos_core ventas_df productos clientes canales moneda
      fecha_desde fecha_hasta with
  | .ok r => r
  | .error _ => ventas_df

/-! ## Specification-side formulas

These restate, in the words of the spec, the quantities the claims compare the
code against: total sales as a sum of quantity times unit net value over the
filtered sales rows, and total paid as the sum of payment amounts over the
payments whose invoice reference occurs among the distinct document ids of
the filtered sales view. -/

def totalSalesSpec (ventas_df : DataFrame) : ℚ :=
  (ventas_df.rows.map
    (fun r => (r.cell "Cantidad").toRat * (r.cell "Valor_Neto").toRat)).sum

/-- The distinct document ids present in the (filtered) sales table. -/
def docIds (ventas_df : DataFrame) : List Value :=
  (ventas_df.rows.map (fun r => r.cell "Doc_Venta")).dedup

/-- The payment rows whose invoice reference occurs among `docIds`. -/
def pagosEmparejados (ventas_df pagos_df : DataFrame) : List Row :=
  pagos_df.rows.filter (fun r => decide (r.cell "Referencia_Factura" ∈ docIds ventas_df))

def totalPaidSpec (ventas_df pagos_df : DataFrame) : ℚ :=
  ((pagosEmparejados ventas_df pagos_df).map (fun r => (r.cell "Monto_Pago").toRat)).sum

/-- Well-formedness of a sales table for KPI purposes: the three used
columns exist and the two numeric ones hold numbers. -/
def KpiReadyVentas (v : DataFrame) : Prop :=
  "Cantidad" ∈ v.cols ∧ "Valor_Neto" ∈ v.cols ∧ "Doc_Venta" ∈ v.cols ∧
    ∀ r ∈ v.rows, (r.cell "Cantidad").isNum = true ∧ (r.cell "Valor_Neto").isNum = true

/-- Well-formedness of a payments table for KPI purposes. -/
def KpiReadyPagos (p : DataFrame) : Prop :=
  "Referencia_Factura" ∈ p.cols ∧ "Monto_Pago" ∈ p.cols ∧
    ∀ r ∈ p.rows, (r.cell "Monto_Pago").isNum = true

instance (v : DataFrame) : Decidable (KpiReadyVentas v) := by
  unfold KpiReadyVentas; infer_instance

instance (p : DataFrame) : Decidable (KpiReadyPagos p) := by
  unfold KpiReadyPagos; infer_instance

/-! ## Helper lemmas -/

theorem Value.isNum_iff {v : Value} : v.isNum = true ↔ ∃ q, v = Value.num q := by
  cases v <;> simp [Value.isNum]

@[simp] theorem Value.toRat_num (q : ℚ) : (Value.num q).toRat = q := rfl

theorem sumSeries_num (vs : List Value) (h : ∀ v ∈ vs, v.isNum = true) :
    sumSeries vs = .ok ((vs.map Value.toRat).sum) := by
  induction vs with
  | nil => rfl
  | cons v t ih =>
    obtain ⟨q, rfl⟩ := Value.isNum_iff.mp (h v (by simp))
    have ht := ih (fun x hx => h x (by simp [hx]))
    simp [sumSeries, ht, Bind.bind, Except.bind]

theorem prodSeries_map {α : Type} (f g : α → Value) (l : List α)
    (h : ∀ x ∈ l, (f x).isNum = true ∧ (g x).isNum = true) :
    prodSeries (l.map f) (l.map g) =
      .ok (l.map (fun x => Value.num ((f x).toRat * (g x).toRat))) := by
  induction l with
  | nil => rfl
  | cons a t ih =>
    obtain ⟨qa, ha⟩ := Value.isNum_iff.mp (h a (by simp)).1
    obtain ⟨qb, hb⟩ := Value.isNum_iff.mp (h a (by simp)).2
    have ht := ih (fun x hx => h x (by simp [hx]))
    simp [prodSeries, ha, hb, ht, Bind.bind, Except.bind]

theorem filter_subset_self {α : Type} (l : List α) (q : α → Bool) (x : α)
    (hx : x ∈ l.filter q) : x ∈ l := (List.mem_filter.mp hx).1

theorem filter_eq_of_all {α : Type} (l : List α) (q : α → Bool)
    (h : ∀ x ∈ l, q x = true) : l.filter q = l := List.filter_eq_self.mpr h

theorem calcular_kpis_core_eq_spec (v p : DataFrame)
    (hv : KpiReadyVentas v) (hp : KpiReadyPagos p) :
    calcular_kpis_core v p =
      .ok (totalSalesSpec v, totalPaidSpec v p, totalSalesSpec v - totalPaidSpec v p) := by
  obtain ⟨hc, hvc, hd, hnum⟩ := hv
  obtain ⟨hrc, hmc, hpnum⟩ := hp
  have hprod := prodSeries_map (fun r => Row.cell r "Cantidad")
    (fun r => Row.cell r "Valor_Neto") v.rows hnum
  have hsum1 := sumSeries_num
    (v.rows.map (fun r => Value.num ((Row.cell r "Cantidad").toRat * (Row.cell r "Valor_Neto").toRat)))
    (by
      intro x hx
      simp only [List.mem_map] at hx
      obtain ⟨r, _, rfl⟩ := hx
      rfl)
  have hmnum : ∀ x ∈ (p.rows.filter
      (fun r => decide (Row.cell r "Referencia_Factura" ∈ docIds v))).map
        (fun r => Row.cell r "Monto_Pago"), x.isNum = true := by
    intro x hx
    simp only [List.mem_map] at hx
    obtain ⟨r, hr2, rfl⟩ := hx
    exact hpnum r (List.mem_filter.mp hr2).1
  have hsum2 := sumSeries_num _ hmnum
  simp only [docIds] at hsum2
  simp only [calcular_kpis_core, DataFrame.col, hc, hvc, hd, hrc, hmc, if_true,
    eq_self_iff_true, Bind.bind, Except.bind, hprod, hsum1, hsum2]
  simp only [totalSalesSpec, totalPaidSpec, pagosEmparejados, docIds, List.map_map]
  simp [Function.comp_def]

theorem calcular_kpis_eq_spec (v p : DataFrame)
    (hv : KpiReadyVentas v) (hp : KpiReadyPagos p) :
    calcular_kpis v p =
      (totalSalesSpec v, totalPaidSpec v p, totalSalesSpec v - totalPaidSpec v p) := by
  simp [calcular_kpis, calcular_kpis_core_eq_spec v p hv hp]

theorem bind_ok_inv {α β : Type} {x : Except String α} {f : α → Except String β} {b : β}
    (h : (x >>= f) = .ok b) : ∃ a, x = .ok a ∧ f a = .ok b := by
  cases x with
  | error e => simp [Bind.bind, Except.bind] at h
  | ok a => exact ⟨a, rfl, by simpa [Bind.bind, Except.bind] using h⟩

theorem filtroIsin_ok_inv {df r : DataFrame} {c : String} {vals : List Value}
    (h : filtroIsin df c vals = .ok r) :
    c ∈ df.cols ∧ r = ⟨df.cols, df.rows.filter (fun x => decide (x.cell c ∈ vals))⟩ := by
  by_cases hc : c ∈ df.cols
  · unfold filtroIsin at h
    rw [if_pos hc] at h
    injection h with h2
    exact ⟨hc, h2.symm⟩
  · unfold filtroIsin at h
    rw [if_neg hc] at h
    cases h

theorem filtroEq_ok_inv {df r : DataFrame} {c : String} {v : Value}
    (h : filtroEq df c v = .ok r) :
    c ∈ df.cols ∧ r = ⟨df.cols, df.rows.filter (fun x => x.cell c == v)⟩ := by
  by_cases hc : c ∈ df.cols
  · unfold filtroEq at h
    rw [if_pos hc] at h
    injection h with h2
    exact ⟨hc, h2.symm⟩
  · unfold filtroEq at h
    rw [if_neg hc] at h
    cases h

theorem filtroIsin_of_all {df : DataFrame} {c : String} {vals : List Value}
    (hc : c ∈ df.cols) (hall : ∀ x ∈ df.rows, decide (x.cell c ∈ vals) = true) :
    filtroIsin df c vals = .ok df := by
  unfold filtroIsin
  rw [if_pos hc, filter_eq_of_all _ _ hall]

theorem filtroEq_of_all {df : DataFrame} {c : String} {v : Value}
    (hc : c ∈ df.cols) (hall : ∀ x ∈ df.rows, (x.cell c == v) = true) :
    filtroEq df c v = .ok df := by
  unfold filtroEq
  rw [if_pos hc, filter_eq_of_all _ _ hall]

theorem mem_of_mem_filter_rows {l : List Row} {q : Row → Bool} {x : Row}
    (hx : x ∈ (DataFrame.mk c (l.filter q)).rows) : q x = true :=
  (List.mem_filter.mp hx).2

theorem pasoMoneda_ok_inv {df r : DataFrame} {moneda : Option String}
    (h : pasoMoneda df moneda = .ok r) :
    r.cols = df.cols ∧ (∀ x ∈ r.rows, x ∈ df.rows) ∧
      (∀ m, moneda = some m → (m ≠ "" ∧ m ≠ "Todas") →
        (∀ x ∈ r.rows, (x.cell "Moneda" == Value.str m) = true) ∧ "Moneda" ∈ df.cols) := by
  cases moneda with
  | none =>
    simp only [pasoMoneda] at h
    injection h with h
    subst h
    exact ⟨rfl, fun x hx => hx, fun m hm => by cases hm⟩
  | some m =>
    simp only [pasoMoneda] at h
    by_cases h3 : m ≠ "" ∧ m ≠ "Todas"
    · rw [if_pos h3] at h
      obtain ⟨hcin, rfl⟩ := filtroEq_ok_inv h
      refine ⟨rfl, fun x hx => filter_subset_self _ _ _ hx, ?_⟩
      intro m2 hm2 _
      injection hm2 with hm2
      subst hm2
      exact ⟨fun x hx => (List.mem_filter.mp hx).2, hcin⟩
    · rw [if_neg h3] at h
      injection h with h
      subst h
      exact ⟨rfl, fun x hx => hx, fun m2 hm2 h32 => by
        injection hm2 with hm2
        subst hm2
        exact absurd h32 h3⟩

theorem aplicar_filtros_core_idem {df r : DataFrame}
    {productos clientes : Option (List Value)} {moneda : Option String}
    (h : aplicar_filtros_core df productos clientes moneda = .ok r) :
    aplicar_filtros_core r productos clientes moneda = .ok r := by
  unfold aplicar_filtros_core at h ⊢
  obtain ⟨df1, hs1, h⟩ := bind_ok_inv h
  obtain ⟨df2, hs2, h⟩ := bind_ok_inv h
  obtain ⟨df3, hs3, h⟩ := bind_ok_inv h
  injection h with h
  subst h
  -- facts about step 1
  have hf1 : df1.cols = df.cols ∧
      (truthyList productos = true →
        ∀ x ∈ df1.rows, decide (x.cell "Producto" ∈ productos.getD []) = true) := by
    by_cases h1 : truthyList productos = true
    · rw [if_pos h1] at hs1
      obtain ⟨hcin, rfl⟩ := filtroIsin_ok_inv hs1
      exact ⟨rfl, fun _ x hx => (List.mem_filter.mp hx).2⟩
    · rw [if_neg h1] at hs1
      injection hs1 with hs1
      subst hs1
      exact ⟨rfl, fun hcontra => absurd hcontra h1⟩
  have hcol1 : truthyList productos = true → "Producto" ∈ df.cols := by
    intro h1
    rw [if_pos h1] at hs1
    exact (filtroIsin_ok_inv hs1).1
  -- facts about step 2
  have hf2 : df2.cols = df1.cols ∧ (∀ x ∈ df2.rows, x ∈ df1.rows) ∧
      (truthyList clientes = true →
        ∀ x ∈ df2.rows, decide (x.cell "Nombre_Cliente" ∈ clientes.getD []) = true) := by
    by_cases h2 : truthyList clientes = true
    · rw [if_pos h2] at hs2
      obtain ⟨hcin, rfl⟩ := filtroIsin_ok_inv hs2
      exact ⟨rfl, fun x hx => filter_subset_self _ _ _ hx,
        fun _ x hx => (List.mem_filter.mp hx).2⟩
    · rw [if_neg h2] at hs2
      injection hs2 with hs2
      subst hs2
      exact ⟨rfl, fun x hx => hx, fun hcontra => absurd hcontra h2⟩
  have hcol2 : truthyList clientes = true → "Nombre_Cliente" ∈ df1.cols := by
    intro h2
    rw [if_pos h2] at hs2
    exact (filtroIsin_ok_inv hs2).1
  -- facts about step 3
  have hf3 := pasoMoneda_ok_inv hs3
  -- assemble: the second application leaves df3 unchanged
  have hcols3 : df3.cols = df.cols := by rw [hf3.1, hf2.1, hf1.1]
  have gs1 : (if truthyList productos then filtroIsin df3 "Producto" (productos.getD [])
      else Except.ok df3) = .ok df3 := by
    by_cases h1 : truthyList productos = true
    · rw [if_pos h1]
      exact filtroIsin_of_all (by rw [hcols3]; exact hcol1 h1)
        (fun x hx => hf1.2 h1 x (hf2.2.1 x (hf3.2.1 x hx)))
    · rw [if_neg h1]
  have gs2 : (if truthyList clientes then filtroIsin df3 "Nombre_Cliente" (clientes.getD [])
      else Except.ok df3) = .ok df3 := by
    by_cases h2 : truthyList clientes = true
    · rw [if_pos h2]
      exact filtroIsin_of_all (by rw [hf3.1, hf2.1]; exact hcol2 h2)
        (fun x hx => hf2.2.2 h2 x (hf3.2.1 x hx))
    · rw [if_neg h2]
  have gs3 : pasoMoneda df3 moneda = .ok df3 := by
    cases moneda with
    | none => rfl
    | some m =>
      simp only [pasoMoneda]
      by_cases h3 : m ≠ "" ∧ m ≠ "Todas"
      · rw [if_pos h3]
        obtain ⟨hall, hcin⟩ := hf3.2.2 m rfl h3
        exact filtroEq_of_all (by rw [hf3.1]; exact hcin) hall
      · rw [if_neg h3]
  simp only [Bind.bind, Except.bind, gs1, gs2, gs3]

theorem aplicar_filtros_neutral (df : DataFrame)
    (productos clientes : Option (List Value)) (moneda : Option String)
    (hp : productos = none ∨ productos = some [])
    (hc : clientes = none ∨ clientes = some [])
    (hm : moneda = none ∨ moneda = some "Todas") :
    aplicar_filtros df productos clientes moneda = df := by
  have h1 : truthyList productos = false := by rcases hp with rfl | rfl <;> rfl
  have h2 : truthyList clientes = false := by rcases hc with rfl | rfl <;> rfl
  rcases hm with rfl | rfl <;>
    simp [aplicar_filtros, aplicar_filtros_core, pasoMoneda, h1, h2, Bind.bind, Except.bind]

/-- Claim C7: `aplicar_filtros` is the identity when every filter is absent:
product and customer filters absent (`None`) or empty, and the currency
filter absent or the sentinel `"Todas"`. -/
theorem aplicar_filtros_identity (df : DataFrame)
    (productos clientes : Option (List Value)) (moneda : Option String)
    (hp : productos = none ∨ productos = some [])
    (hc : clientes = none ∨ clientes = some [])
    (hm : moneda = none ∨ moneda = some "Todas") :
    aplicar_filtros df productos clientes moneda = df :=
  aplicar_filtros_neutral df productos clientes moneda hp hc hm

/-- A concrete sales table used as witness input. -/
def ventasEjemploFiltro : DataFrame :=
  ⟨["Producto", "Nombre_Cliente", "Moneda"],
   [[("Producto", Value.str "Laptop"), ("Nombre_Cliente", Value.str "Acme"),
     ("Moneda", Value.str "COP")],
    [("Producto", Value.str "Tablet"), ("Nombre_Cliente", Value.str "Globex"),
     ("Moneda", Value.str "USD")]]⟩

theorem aplicar_filtros_identity_witness :
    aplicar_filtros ventasEjemploFiltro none (some []) (some "Todas") = ventasEjemploFiltro :=
  aplicar_filtros_identity ventasEjemploFiltro none (some []) (some "Todas")
    (Or.inl rfl) (Or.inr rfl) (Or.inr rfl)

/-- Claim C8: filtering is idempotent: applying `aplicar_filtros` with the
same parameters twice yields the same table as applying it once, for every
input table — including the fail-open branch, which reproduces the input. -/
theorem aplicar_filtros_idempotent (df : DataFrame)
    (productos clientes : Option (List Value)) (moneda : Option String) :
    aplicar_filtros (aplicar_filtros df productos clientes moneda) productos clientes moneda =
      aplicar_filtros df productos clientes moneda := by
  unfold aplicar_filtros
  cases h : aplicar_filtros_core df productos clientes moneda with
  | ok r => simp only [h, aplicar_filtros_core_idem h]
  | error e => simp only [h]

/-- Claim C5: when the body of the `try` block of `aplicar_filtros` fails
with any internal error, the call does not propagate the exception and
returns the original unfiltered input table. -/
theorem aplicar_filtros_fail_open (df : DataFrame)
    (productos clientes : Option (List Value)) (moneda : Option String) (e : String)
    (h : aplicar_filtros_core df productos clientes moneda = .error e) :
    aplicar_filtros df productos clientes moneda = df := by
  simp [aplicar_filtros, h]

/-- A table without a `Producto` column: filtering it by products raises a
`KeyError` inside the `try` block. -/
def dfSinProducto : DataFrame :=
  ⟨["Moneda"], [[("Moneda", Value.str "COP")]]⟩

theorem aplicar_filtros_fail_open_witness :
    aplicar_filtros_core dfSinProducto (some [Value.str "Laptop"]) none none =
        .error "KeyError: Producto" ∧
      aplicar_filtros dfSinProducto (some [Value.str "Laptop"]) none none = dfSinProducto :=
  ⟨rfl, aplicar_filtros_fail_open dfSinProducto (some [Value.str "Laptop"]) none none
    "KeyError: Producto" rfl⟩

/-- The concrete example of the claim: one sale, doc=1, qty=2, price=100. -/
def ventasEjemplo : DataFrame :=
  ⟨["Doc_Venta", "Cantidad", "Valor_Neto"],
   [[("Doc_Venta", Value.num 1), ("Cantidad", Value.num 2), ("Valor_Neto", Value.num 100)]]⟩

/-- The concrete example of the claim: payments ref=1 amount=150 and
ref=2 amount=999. -/
def pagosEjemplo : DataFrame :=
  ⟨["Referencia_Factura", "Monto_Pago"],
   [[("Referencia_Factura", Value.num 1), ("Monto_Pago", Value.num 150)],
    [("Referencia_Factura", Value.num 2), ("Monto_Pago", Value.num 999)]]⟩

theorem kpis_ejemplo_eval : calcular_kpis ventasEjemplo pagosEjemplo = (200, 150, 50) := by
  have hm : pagosEmparejados ventasEjemplo pagosEjemplo =
      [[("Referencia_Factura", Value.num 1), ("Monto_Pago", Value.num 150)]] := by decide
  have hc1 : Row.cell [("Doc_Venta", Value.num 1), ("Cantidad", Value.num 2),
      ("Valor_Neto", Value.num 100)] "Cantidad" = Value.num 2 := by decide
  have hc2 : Row.cell [("Doc_Venta", Value.num 1), ("Cantidad", Value.num 2),
      ("Valor_Neto", Value.num 100)] "Valor_Neto" = Value.num 100 := by decide
  have hc3 : Row.cell [("Referencia_Factura", Value.num 1), ("Monto_Pago", Value.num 150)]
      "Monto_Pago" = Value.num 150 := by decide
  rw [calcular_kpis_eq_spec ventasEjemplo pagosEjemplo (by decide) (by decide)]
  unfold totalSalesSpec totalPaidSpec
  rw [hm]
  simp only [ventasEjemplo, List.map_cons, List.map_nil, hc1, hc2, hc3,
    List.sum_cons, List.sum_nil, Value.toRat]
  norm_num

/-- Claim C1: for every (filtered) sales table and payments table whose KPI
columns are present and numeric, `calcular_kpis` returns exactly
(totalSales, totalPaid, totalSales − totalPaid), where totalSales sums
quantity times unit net value over sales rows and totalPaid sums payment
amounts over exactly the payments whose invoice reference occurs among the
distinct document ids of the filtered sales table; in particular the
documented example yields (200, 150, 50). -/
theorem calcular_kpis_correct (v p : DataFrame)
    (hv : KpiReadyVentas v) (hp : KpiReadyPagos p) :
    calcular_kpis v p =
        (totalSalesSpec v, totalPaidSpec v p, totalSalesSpec v - totalPaidSpec v p) ∧
      calcular_kpis ventasEjemplo pagosEjemplo = (200, 150, 50) :=
  ⟨calcular_kpis_eq_spec v p hv hp, kpis_ejemplo_eval⟩

theorem calcular_kpis_correct_witness :
    KpiReadyVentas ventasEjemplo ∧ KpiReadyPagos pagosEjemplo ∧
      calcular_kpis ventasEjemplo pagosEjemplo =
        (totalSalesSpec ventasEjemplo, totalPaidSpec ventasEjemplo pagosEjemplo,
         totalSalesSpec ventasEjemplo - totalPaidSpec ventasEjemplo pagosEjemplo) :=
  ⟨by decide, by decide,
   (calcular_kpis_correct ventasEjemplo pagosEjemplo (by decide) (by decide)).1⟩

/-- Claim C6: `calcular_kpis` never propagates an exception: on an empty
filtered-sales table (any columns, any payments table) it returns (0,0,0),
and whenever the body of its `try` block fails with any internal error it
returns the zeroed triple (0,0,0). -/
theorem calcular_kpis_never_raises :
    (∀ (cols : List String) (pagos_df : DataFrame),
        calcular_kpis ⟨cols, []⟩ pagos_df = (0, 0, 0)) ∧
      (∀ (ventas_df pagos_df : DataFrame) (e : String),
        calcular_kpis_core ventas_df pagos_df = .error e →
        calcular_kpis ventas_df pagos_df = (0, 0, 0)) := by
  constructor
  · intro cols pagos_df
    simp only [calcular_kpis, calcular_kpis_core, DataFrame.col, Bind.bind, Except.bind]
    by_cases h1 : "Cantidad" ∈ cols <;>
      by_cases h2 : "Valor_Neto" ∈ cols <;>
        by_cases h3 : "Doc_Venta" ∈ cols <;>
          by_cases h4 : "Referencia_Factura" ∈ pagos_df.cols <;>
            by_cases h5 : "Monto_Pago" ∈ pagos_df.cols <;>
              simp [h1, h2, h3, h4, h5, prodSeries, sumSeries]
  · intro ventas_df pagos_df e h
    simp [calcular_kpis, h]

/-- A nonempty table with no columns: `ventas_df["Cantidad"]` raises. -/
def dfSinColumnas : DataFrame := ⟨[], [[("X", Value.num 1)]]⟩

def dfVacio : DataFrame := ⟨[], []⟩

theorem calcular_kpis_never_raises_witness :
    calcular_kpis ⟨["Cantidad"], []⟩ dfVacio = (0, 0, 0) ∧
      calcular_kpis_core dfSinColumnas dfVacio = .error "KeyError: Cantidad" ∧
      calcular_kpis dfSinColumnas dfVacio = (0, 0, 0) :=
  ⟨calcular_kpis_never_raises.1 ["Cantidad"] dfVacio, rfl,
   calcular_kpis_never_raises.2 dfSinColumnas dfVacio "KeyError: Cantidad" rfl⟩

/-- Claim C10: the amount of a payment contributes to totalPaid at most once no
matter how many times its referenced document id occurs among the filtered
sales rows: appending a duplicate sales row whose document id is already
present leaves the totalPaid component of `calcular_kpis` unchanged. -/
theorem total_pagado_once (v p : DataFrame) (r : Row)
    (hv : KpiReadyVentas v) (hp : KpiReadyPagos p)
    (hrc : (Row.cell r "Cantidad").isNum = true)
    (hrv : (Row.cell r "Valor_Neto").isNum = true)
    (hdoc : Row.cell r "Doc_Venta" ∈ docIds v) :
    (calcular_kpis ⟨v.cols, v.rows ++ [r]⟩ p).2.1 = (calcular_kpis v p).2.1 := by
  have hv2 : KpiReadyVentas ⟨v.cols, v.rows ++ [r]⟩ := by
    obtain ⟨h1, h2, h3, h4⟩ := hv
    refine ⟨h1, h2, h3, ?_⟩
    intro x hx
    rcases List.mem_append.mp hx with hx2 | hx2
    · exact h4 x hx2
    · rw [List.mem_singleton.mp hx2]
      exact ⟨hrc, hrv⟩
  have hdoc2 : Row.cell r "Doc_Venta" ∈ v.rows.map (fun a => a.cell "Doc_Venta") := by
    simpa [docIds, List.mem_dedup] using hdoc
  have hmem : ∀ x : Value,
      (x ∈ docIds ⟨v.cols, v.rows ++ [r]⟩) ↔ (x ∈ docIds v) := by
    intro x
    simp only [docIds, List.mem_dedup, List.map_append, List.map_cons, List.map_nil,
      List.mem_append, List.mem_singleton]
    exact or_iff_left_iff_imp.mpr (fun hx => hx ▸ hdoc2)
  have hfilters : pagosEmparejados ⟨v.cols, v.rows ++ [r]⟩ p = pagosEmparejados v p := by
    unfold pagosEmparejados
    apply List.filter_congr
    intro x _
    exact decide_eq_decide.mpr (hmem (x.cell "Referencia_Factura"))
  rw [calcular_kpis_eq_spec _ _ hv2 hp, calcular_kpis_eq_spec _ _ hv hp]
  simp only [totalPaidSpec, hfilters]

theorem total_pagado_once_witness :
    (calcular_kpis
        ⟨ventasEjemplo.cols,
         ventasEjemplo.rows ++
           [[("Doc_Venta", Value.num 1), ("Cantidad", Value.num 3),
             ("Valor_Neto", Value.num 7)]]⟩ pagosEjemplo).2.1 =
      (calcular_kpis ventasEjemplo pagosEjemplo).2.1 :=
  total_pagado_once ventasEjemplo pagosEjemplo
    [("Doc_Venta", Value.num 1), ("Cantidad", Value.num 3), ("Valor_Neto", Value.num 7)]
    (by decide) (by decide) (by decide) (by decide) (by decide)

/-! ## Lemmas about `Row.set` / `Row.cell` -/

theorem find?_append_of_none {α : Type} (p : α → Bool) :
    ∀ (l1 l2 : List α), List.find? p l1 = none →
      List.find? p (l1 ++ l2) = List.find? p l2 := by
  intro l1 l2
  induction l1 with
  | nil => intro _; rfl
  | cons a t ih =>
    intro h
    cases hpa : p a with
    | true => simp [List.find?, hpa] at h
    | false =>
      simp only [List.find?, hpa] at h
      simp only [List.cons_append, List.find?, hpa]
      exact ih h

theorem find?_append_of_some {α : Type} (p : α → Bool) {a : α} :
    ∀ (l1 l2 : List α), List.find? p l1 = some a →
      List.find? p (l1 ++ l2) = some a := by
  intro l1 l2
  induction l1 with
  | nil => intro h; cases h
  | cons b t ih =>
    intro h
    cases hpb : p b with
    | true =>
      simp only [List.find?, hpb] at h
      simp only [List.cons_append, List.find?, hpb]
      exact h
    | false =>
      simp only [List.find?, hpb] at h
      simp only [List.cons_append, List.find?, hpb]
      exact ih h

theorem find?_map_update (c : String) (v : Value) :
    ∀ l : Row, l.any (fun p => p.1 == c) = true →
      List.find? (fun p => p.1 == c)
          (l.map (fun p => if p.1 == c then (p.1, v) else p)) = some (c, v) := by
  intro l
  induction l with
  | nil => intro h; cases h
  | cons p t ih =>
    intro h
    by_cases hp : (p.1 == c) = true
    · have hpc : p.1 = c := by simpa using hp
      simp [List.find?, hp, hpc]
    · simp only [List.any_cons, hp, Bool.false_or] at h
      simp only [List.map_cons, List.find?, hp, if_false, Bool.false_eq_true]
      exact ih h

theorem find?_map_update_other (c c2 : String) (v : Value) (hne : c2 ≠ c) :
    ∀ l : Row, List.find? (fun p => p.1 == c2)
        (l.map (fun p => if p.1 == c then (p.1, v) else p)) =
      List.find? (fun p => p.1 == c2) l := by
  intro l
  induction l with
  | nil => rfl
  | cons p t ih =>
    simp only [List.map_cons]
    by_cases hp2 : (p.1 == c2) = true
    · have hp : (p.1 == c) = false := by
        have : p.1 = c2 := by simpa using hp2
        rw [this]
        exact beq_eq_false_iff_ne.mpr hne
      rw [if_neg (by simp [hp])]
      rw [@List.find?_cons_of_pos _ (fun q => q.1 == c2) p _ hp2,
        @List.find?_cons_of_pos _ (fun q => q.1 == c2) p _ hp2]
    · by_cases hp : (p.1 == c) = true
      · rw [if_pos hp]
        rw [@List.find?_cons_of_neg _ (fun q => q.1 == c2) (p.1, v) _ (by simpa using hp2),
          @List.find?_cons_of_neg _ (fun q => q.1 == c2) p _ hp2]
        exact ih
      · rw [if_neg hp]
        rw [@List.find?_cons_of_neg _ (fun q => q.1 == c2) p _ hp2,
          @List.find?_cons_of_neg _ (fun q => q.1 == c2) p _ hp2]
        exact ih

theorem cell_set_self (r : Row) (c : String) (v : Value) :
    (Row.set r c v).cell c = v := by
  unfold Row.set
  by_cases h : r.any (fun p => p.1 == c) = true
  · rw [if_pos h]
    unfold Row.cell
    rw [find?_map_update c v r h]
  · rw [if_neg h]
    unfold Row.cell
    have hnone : List.find? (fun p => p.1 == c) r = none := by
      rw [List.find?_eq_none]
      intro x hx
      by_contra hcon
      exact h (List.any_eq_true.mpr ⟨x, hx, by simpa using hcon⟩)
    rw [find?_append_of_none _ r [(c, v)] hnone]
    simp [List.find?]

theorem cell_set_other (r : Row) (c c2 : String) (v : Value) (hne : c2 ≠ c) :
    (Row.set r c v).cell c2 = r.cell c2 := by
  unfold Row.set
  by_cases h : r.any (fun p => p.1 == c) = true
  · rw [if_pos h]
    unfold Row.cell
    rw [find?_map_update_other c c2 v hne r]
  · rw [if_neg h]
    unfold Row.cell
    cases hf : List.find? (fun p => p.1 == c2) r with
    | some a => rw [find?_append_of_some _ r [(c, v)] hf]
    | none =>
      rw [find?_append_of_none _ r [(c, v)] hf]
      have : ((c, v).1 == c2) = false := by
        simp
        exact fun hcv => hne hcv.symm
      simp [List.find?, this]

theorem isNum_clean (x : Value) : (fillna0 (to_numeric_coerce x)).isNum = true := by
  cases x with
  | num q => rfl
  | str s =>
    simp only [to_numeric_coerce]
    cases parseNum s with
    | none => rfl
    | some q => rfl
  | date d => rfl
  | null => rfl

theorem mem_cols_mapCol {df : DataFrame} {c c2 : String} {f : Value → Value}
    (h : c2 ∈ df.cols) : c2 ∈ (df.mapCol c f).cols := by
  simp only [DataFrame.mapCol]
  split
  · exact h
  · exact List.mem_append_left _ h

theorem limpiar_ventas_invariants (v : DataFrame) :
    ∀ r ∈ (limpiar_ventas v).rows,
      ¬ Row.cell r "Doc_Venta" = Value.null ∧
        (Row.cell r "Cantidad").isNum = true ∧ (Row.cell r "Valor_Neto").isNum = true := by
  intro r hr
  simp only [limpiar_ventas] at hr
  split at hr
  · simp only [DataFrame.mapCol, DataFrame.dropnaCol] at hr
    rw [List.mem_map] at hr
    obtain ⟨r2, hr2, rfl⟩ := hr
    rw [List.mem_map] at hr2
    obtain ⟨r1, hr1, rfl⟩ := hr2
    rw [List.mem_map] at hr1
    obtain ⟨r0, hr0, rfl⟩ := hr1
    have hdoc0 : ¬ Row.cell r0 "Doc_Venta" = Value.null := by
      simpa using (List.mem_filter.mp hr0).2
    refine ⟨?_, ?_, ?_⟩
    · rw [cell_set_other _ _ _ _ (by decide), cell_set_other _ _ _ _ (by decide),
        cell_set_other _ _ _ _ (by decide)]
      exact hdoc0
    · rw [cell_set_other _ _ _ _ (by decide), cell_set_other _ _ _ _ (by decide),
        cell_set_self]
      exact isNum_clean _
    · rw [cell_set_other _ _ _ _ (by decide), cell_set_self]
      exact isNum_clean _
  · simp only [DataFrame.mapCol, DataFrame.dropnaCol] at hr
    rw [List.mem_map] at hr
    obtain ⟨r1, hr1, rfl⟩ := hr
    rw [List.mem_map] at hr1
    obtain ⟨r0, hr0, rfl⟩ := hr1
    have hdoc0 : ¬ Row.cell r0 "Doc_Venta" = Value.null := by
      simpa using (List.mem_filter.mp hr0).2
    refine ⟨?_, ?_, ?_⟩
    · rw [cell_set_other _ _ _ _ (by decide), cell_set_other _ _ _ _ (by decide)]
      exact hdoc0
    · rw [cell_set_other _ _ _ _ (by decide), cell_set_self]
      exact isNum_clean _
    · rw [cell_set_self]
      exact isNum_clean _

theorem limpiar_pagos_invariants (p : DataFrame) :
    ∀ r ∈ (limpiar_pagos p).rows,
      ¬ Row.cell r "Referencia_Factura" = Value.null ∧
        (Row.cell r "Monto_Pago").isNum = true := by
  intro r hr
  simp only [limpiar_pagos] at hr
  split at hr
  · simp only [DataFrame.mapCol, DataFrame.dropnaCol] at hr
    rw [List.mem_map] at hr
    obtain ⟨r1, hr1, rfl⟩ := hr
    rw [List.mem_map] at hr1
    obtain ⟨r0, hr0, rfl⟩ := hr1
    have href : ¬ Row.cell r0 "Referencia_Factura" = Value.null := by
      simpa using (List.mem_filter.mp hr0).2
    refine ⟨?_, ?_⟩
    · rw [cell_set_other _ _ _ _ (by decide), cell_set_other _ _ _ _ (by decide)]
      exact href
    · rw [cell_set_other _ _ _ _ (by decide), cell_set_self]
      exact isNum_clean _
  · simp only [DataFrame.mapCol, DataFrame.dropnaCol] at hr
    rw [List.mem_map] at hr
    obtain ⟨r0, hr0, rfl⟩ := hr
    have href : ¬ Row.cell r0 "Referencia_Factura" = Value.null := by
      simpa using (List.mem_filter.mp hr0).2
    refine ⟨?_, ?_⟩
    · rw [cell_set_other _ _ _ _ (by decide)]
      exact href
    · rw [cell_set_self]
      exact isNum_clean _

theorem limpiar_stock_invariants (s : DataFrame) :
    ∀ r ∈ (limpiar_stock s).rows, (Row.cell r "Stock_Total").isNum = true := by
  intro r hr
  simp only [limpiar_stock, DataFrame.mapCol] at hr
  rw [List.mem_map] at hr
  obtain ⟨r0, hr0, rfl⟩ := hr
  rw [cell_set_self]
  exact isNum_clean _

theorem limpiar_ventas_length (v : DataFrame) :
    (limpiar_ventas v).rows.length =
      (v.rows.filter (fun r => !(Row.cell r "Doc_Venta" == Value.null))).length := by
  simp only [limpiar_ventas]
  split <;> simp [DataFrame.mapCol, DataFrame.dropnaCol]

theorem limpiar_ventas_fecha (v : DataFrame) (hfc : "Fecha_Doc" ∈ v.cols) :
    ∀ r ∈ v.rows, ¬ Row.cell r "Doc_Venta" = Value.null →
      ∃ r2 ∈ (limpiar_ventas v).rows,
        Row.cell r2 "Fecha_Doc" = to_datetime_coerce (Row.cell r "Fecha_Doc") := by
  intro r hr hdoc
  have hf3 : "Fecha_Doc" ∈
      (((v.dropnaCol "Doc_Venta").mapCol "Cantidad" (fun x => fillna0 (to_numeric_coerce x))).mapCol
        "Valor_Neto" (fun x => fillna0 (to_numeric_coerce x))).cols :=
    mem_cols_mapCol (mem_cols_mapCol hfc)
  simp only [limpiar_ventas]
  rw [if_pos hf3]
  refine ⟨(((r.set "Cantidad" (fillna0 (to_numeric_coerce (r.cell "Cantidad")))).set
      "Valor_Neto" (fillna0 (to_numeric_coerce
        ((r.set "Cantidad" (fillna0 (to_numeric_coerce (r.cell "Cantidad")))).cell
          "Valor_Neto")))).set "Fecha_Doc" ?_), ?_, ?_⟩
  · exact to_datetime_coerce
      (((r.set "Cantidad" (fillna0 (to_numeric_coerce (r.cell "Cantidad")))).set
        "Valor_Neto" (fillna0 (to_numeric_coerce
          ((r.set "Cantidad" (fillna0 (to_numeric_coerce (r.cell "Cantidad")))).cell
            "Valor_Neto")))).cell "Fecha_Doc")
  · simp only [DataFrame.mapCol, DataFrame.dropnaCol]
    apply List.mem_map.mpr
    refine ⟨_, ?_, rfl⟩
    apply List.mem_map.mpr
    refine ⟨_, ?_, rfl⟩
    apply List.mem_map.mpr
    refine ⟨r, ?_, rfl⟩
    exact List.mem_filter.mpr ⟨hr, by simpa using hdoc⟩
  · rw [cell_set_self]
    rw [cell_set_other _ _ _ _ (by decide), cell_set_other _ _ _ _ (by decide)]

/-- Claim C3: after cleaning, every sales row has a non-null document id and
every payments row has a non-null invoice reference; the designated numeric
columns (sales quantity, sales net value, payment amount, total stock
quantity) hold only (finite) numbers; and sales rows whose document date
fails to parse are kept — exactly the rows with non-null document id
survive, each carrying the null-tolerant coerced date (null when the parse
fails) rather than being dropped. -/
theorem limpiar_datos_invariants (v p s : DataFrame) :
    (∀ r ∈ (limpiar_ventas v).rows,
        ¬ Row.cell r "Doc_Venta" = Value.null ∧
          (Row.cell r "Cantidad").isNum = true ∧ (Row.cell r "Valor_Neto").isNum = true) ∧
      (∀ r ∈ (limpiar_pagos p).rows,
        ¬ Row.cell r "Referencia_Factura" = Value.null ∧
          (Row.cell r "Monto_Pago").isNum = true) ∧
      (∀ r ∈ (limpiar_stock s).rows, (Row.cell r "Stock_Total").isNum = true) ∧
      (limpiar_ventas v).rows.length =
        (v.rows.filter (fun r => !(Row.cell r "Doc_Venta" == Value.null))).length ∧
      ("Fecha_Doc" ∈ v.cols → ∀ r ∈ v.rows, ¬ Row.cell r "Doc_Venta" = Value.null →
        ∃ r2 ∈ (limpiar_ventas v).rows,
          Row.cell r2 "Fecha_Doc" = to_datetime_coerce (Row.cell r "Fecha_Doc")) :=
  ⟨limpiar_ventas_invariants v, limpiar_pagos_invariants p, limpiar_stock_invariants s,
   limpiar_ventas_length v, fun hfc => limpiar_ventas_fecha v hfc⟩

/-- A sales row with an unparseable document date. -/
def rSucio : Row :=
  [("Doc_Venta", Value.num 1), ("Fecha_Doc", Value.str "not-a-date"),
   ("Cantidad", Value.str "x"), ("Valor_Neto", Value.null)]

/-- A dirty sales table: the first row has an unparseable date and
non-numeric amounts, the second has a null document id. -/
def ventasSucio : DataFrame :=
  ⟨["Doc_Venta", "Fecha_Doc", "Cantidad", "Valor_Neto"],
   [rSucio,
    [("Doc_Venta", Value.null), ("Fecha_Doc", Value.str "2024-01-02"),
     ("Cantidad", Value.num 5), ("Valor_Neto", Value.num 3)]]⟩

theorem limpiar_datos_invariants_witness :
    ("Fecha_Doc" ∈ ventasSucio.cols ∧ rSucio ∈ ventasSucio.rows ∧
        ¬ Row.cell rSucio "Doc_Venta" = Value.null) ∧
      ∃ r2 ∈ (limpiar_ventas ventasSucio).rows,
        Row.cell r2 "Fecha_Doc" = to_datetime_coerce (Row.cell rSucio "Fecha_Doc") :=
  ⟨⟨by decide, by decide, by decide⟩,
   (limpiar_datos_invariants ventasSucio dfVacio dfVacio).2.2.2.2
     (by decide) rSucio (by decide) (by decide)⟩

/-! ## Claim C2: the first-missing-file error -/

/-- Substring test, used to state what an error message does (not) name. -/
def containsSub (s pat : String) : Bool :=
  (List.range (s.length + 1)).any
    (fun i => decide ((s.toList.drop i).take pat.length = pat.toList))

/-- Counterexample to claim C2 as stated: with both the sales and the
payments workbooks absent, `cargar_datos` raises a `FileNotFoundError`
whose message names only the sales file — it does not name every missing
file. -/
theorem cargar_datos_first_missing_only :
    ¬ "F_ventas_sap.xlsx" ∈ ["MM_stock_actual.xlsx"] ∧
      ¬ "F_pagos_clientes.xlsx" ∈ ["MM_stock_actual.xlsx"] ∧
      cargar_datos ["MM_stock_actual.xlsx"] dfVacio dfVacio dfVacio =
        .error (.fileNotFound "No se encontró el archivo: F_ventas_sap.xlsx") ∧
      containsSub "No se encontró el archivo: F_ventas_sap.xlsx"
        "F_pagos_clientes.xlsx" = false := by
  refine ⟨by decide, by decide, rfl, by decide⟩

/-- Claim C2 (amended): when at least one required input file is missing,
`cargar_datos` fails with a `FileNotFoundError` naming the *first* missing
file in the fixed check order (ventas, pagos, stock) — not the whole set of
missing files — and this error is distinguishable (by construction) from
the generic wrapped load error. -/
theorem cargar_datos_not_found_first (fs : List String) (v p s : DataFrame)
    (a : String) (h : primerFaltante fs = some a) :
    cargar_datos fs v p s = .error (.fileNotFound ("No se encontró el archivo: " ++ a)) ∧
      a ∈ archivos.map Prod.snd ∧ fs.contains a = false ∧
      ∀ msg, LoadError.fileNotFound ("No se encontró el archivo: " ++ a) ≠
        LoadError.generic msg := by
  refine ⟨by simp [cargar_datos, h], List.mem_of_find?_eq_some h, ?_, ?_⟩
  · have := List.find?_some h
    simpa using this
  · intro msg hmsg
    cases hmsg

theorem cargar_datos_not_found_first_witness :
    primerFaltante ["F_ventas_sap.xlsx", "MM_stock_actual.xlsx"] =
        some "F_pagos_clientes.xlsx" ∧
      cargar_datos ["F_ventas_sap.xlsx", "MM_stock_actual.xlsx"] dfVacio dfVacio dfVacio =
        .error (.fileNotFound "No se encontró el archivo: F_pagos_clientes.xlsx") :=
  ⟨rfl,
   (cargar_datos_not_found_first ["F_ventas_sap.xlsx", "MM_stock_actual.xlsx"]
     dfVacio dfVacio dfVacio "F_pagos_clientes.xlsx" rfl).1⟩

/-! ## Claim C9: the date range filter -/

theorem filterExcept_ok (cmp : Row → Except String Bool) (f : Row → Bool) :
    ∀ rows : List Row, (∀ r ∈ rows, cmp r = .ok (f r)) →
      filterExcept cmp rows = .ok (rows.filter f) := by
  intro rows
  induction rows with
  | nil => intro _; rfl
  | cons a t ih =>
    intro h
    have ha := h a (by simp)
    have ht := ih (fun r hr => h r (by simp [hr]))
    simp [filterExcept, ha, ht, Bind.bind, Except.bind, List.filter_cons]

/-- The boolean the `>=` comparison computes on a date-or-null cell. -/
def fechaGeB (v : Value) (a : ℤ) : Bool :=
  match v with
  | .date d => decide (a ≤ d)
  | _ => false

/-- The boolean the `<=` comparison computes on a date-or-null cell. -/
def fechaLeB (v : Value) (b : ℤ) : Bool :=
  match v with
  | .date d => decide (d ≤ b)
  | _ => false

/-- Whether a document-date cell passes the (inclusive, independently
optional) date-range bounds; a null date passes only when no bound is set
(pandas NaT compares `False` against any bound). -/
def inRange (v : Value) (fd fh : Option ℤ) : Bool :=
  match v with
  | .date d =>
    (match fd with
     | some a => decide (a ≤ d)
     | none => true) &&
    (match fh with
     | some b => decide (d ≤ b)
     | none => true)
  | _ => fd.isNone && fh.isNone

def DateOrNull (v : Value) : Prop :=
  (∃ d, v = Value.date d) ∨ v = Value.null

instance (v : Value) : Decidable (DateOrNull v) :=
  match v with
  | .date d => isTrue (Or.inl ⟨d, rfl⟩)
  | .null => isTrue (Or.inr rfl)
  | .num q => isFalse (by simp [DateOrNull])
  | .str s => isFalse (by simp [DateOrNull])

theorem cmpDateGe_eq {v : Value} (h : DateOrNull v) (a : ℤ) :
    cmpDateGe v a = .ok (fechaGeB v a) := by
  rcases h with ⟨d, rfl⟩ | rfl <;> rfl

theorem cmpDateLe_eq {v : Value} (h : DateOrNull v) (b : ℤ) :
    cmpDateLe v b = .ok (fechaLeB v b) := by
  rcases h with ⟨d, rfl⟩ | rfl <;> rfl

theorem filtroFecha_ge (df : DataFrame) (a : ℤ) (hc : "Fecha_Doc" ∈ df.cols)
    (hd : ∀ r ∈ df.rows, DateOrNull (Row.cell r "Fecha_Doc")) :
    filtroFecha df (fun v => cmpDateGe v a) =
      .ok ⟨df.cols, df.rows.filter (fun r => fechaGeB (Row.cell r "Fecha_Doc") a)⟩ := by
  unfold filtroFecha
  rw [if_pos hc]
  rw [filterExcept_ok _ (fun r => fechaGeB (Row.cell r "Fecha_Doc") a) df.rows
    (fun r hr => cmpDateGe_eq (hd r hr) a)]
  simp [Bind.bind, Except.bind]

theorem filtroFecha_le (df : DataFrame) (b : ℤ) (hc : "Fecha_Doc" ∈ df.cols)
    (hd : ∀ r ∈ df.rows, DateOrNull (Row.cell r "Fecha_Doc")) :
    filtroFecha df (fun v => cmpDateLe v b) =
      .ok ⟨df.cols, df.rows.filter (fun r => fechaLeB (Row.cell r "Fecha_Doc") b)⟩ := by
  unfold filtroFecha
  rw [if_pos hc]
  rw [filterExcept_ok _ (fun r => fechaLeB (Row.cell r "Fecha_Doc") b) df.rows
    (fun r hr => cmpDateLe_eq (hd r hr) b)]
  simp [Bind.bind, Except.bind]

/-- Claim C9: in `aplicar_filtros_completos` (with the other filters
absent, on a cleaned table whose document dates are dates or null) the
document-date range filter keeps exactly the rows whose date lies in the
inclusive range: a row dated exactly on `fecha_desde` or `fecha_hasta` is
retained, a row strictly outside is removed, and an absent bound imposes no
constraint. -/
theorem fecha_filter_inclusive (df : DataFrame) (fd fh : Option ℤ)
    (hc : "Fecha_Doc" ∈ df.cols)
    (hd : ∀ r ∈ df.rows, DateOrNull (Row.cell r "Fecha_Doc")) :
    aplicar_filtros_completos df none none none none fd fh =
      ⟨df.cols, df.rows.filter (fun r => inRange (Row.cell r "Fecha_Doc") fd fh)⟩ := by
  have hneutral : aplicar_filtros df none none none = df :=
    aplicar_filtros_neutral df none none none (Or.inl rfl) (Or.inl rfl) (Or.inl rfl)
  unfold aplicar_filtros_completos aplicar_filtros_completos_core
  rw [hneutral]
  simp only [truthyList, Bool.false_eq_true, if_false, Bind.bind, Except.bind]
  cases fd with
  | none =>
    cases fh with
    | none =>
      simp only [pasoFechaDesde, pasoFechaHasta]
      have : df.rows.filter
          (fun r => inRange (Row.cell r "Fecha_Doc") none none) = df.rows := by
        apply filter_eq_of_all
        intro r hr
        rcases hd r hr with ⟨d, hdq⟩ | hdq <;> simp [hdq, inRange]
      rw [this]
    | some b =>
      simp only [pasoFechaDesde, pasoFechaHasta]
      rw [filtroFecha_le df b hc hd]
      have : df.rows.filter (fun r => fechaLeB (Row.cell r "Fecha_Doc") b) =
          df.rows.filter (fun r => inRange (Row.cell r "Fecha_Doc") none (some b)) := by
        apply List.filter_congr
        intro r hr
        rcases hd r hr with ⟨d, hdq⟩ | hdq <;> simp [hdq, inRange, fechaLeB]
      rw [this]
  | some a =>
    have hstep1 := filtroFecha_ge df a hc hd
    cases fh with
    | none =>
      simp only [pasoFechaDesde, pasoFechaHasta]
      rw [hstep1]
      have : df.rows.filter (fun r => fechaGeB (Row.cell r "Fecha_Doc") a) =
          df.rows.filter (fun r => inRange (Row.cell r "Fecha_Doc") (some a) none) := by
        apply List.filter_congr
        intro r hr
        rcases hd r hr with ⟨d, hdq⟩ | hdq <;> simp [hdq, inRange, fechaGeB]
      rw [this]
    | some b =>
      simp only [pasoFechaDesde, pasoFechaHasta]
      rw [hstep1]
      have hc2 : "Fecha_Doc" ∈
          (DataFrame.mk df.cols
            (df.rows.filter (fun r => fechaGeB (Row.cell r "Fecha_Doc") a))).cols := hc
      have hd2 : ∀ r ∈ (DataFrame.mk df.cols
          (df.rows.filter (fun r => fechaGeB (Row.cell r "Fecha_Doc") a))).rows,
          DateOrNull (Row.cell r "Fecha_Doc") :=
        fun r hr => hd r (filter_subset_self _ _ _ hr)
      simp only [Bind.bind, Except.bind]
      rw [filtroFecha_le _ b hc2 hd2]
      have : (df.rows.filter (fun r => fechaGeB (Row.cell r "Fecha_Doc") a)).filter
            (fun r => fechaLeB (Row.cell r "Fecha_Doc") b) =
          df.rows.filter (fun r => inRange (Row.cell r "Fecha_Doc") (some a) (some b)) := by
        rw [List.filter_filter]
        apply List.filter_congr
        intro r hr
        rcases hd r hr with ⟨d, hdq⟩ | hdq <;>
          simp [hdq, inRange, fechaGeB, fechaLeB, Bool.and_comm]
      rw [this]

/-! ## Claim C4: the report workbook and its summary sheet -/

/-- `len(df[c].unique())` as the spec states it. -/
def nUniqueSpec (df : DataFrame) (c : String) : Nat :=
  ((df.rows.map (fun r => Row.cell r c)).dedup).length

/-- Count of stock rows with strictly positive total stock quantity. -/
def stockPosSpec (s : DataFrame) : Nat :=
  (s.rows.filter (fun r => decide (0 < (Row.cell r "Stock_Total").toRat))).length

/-- Total stock units, summed over the stock rows. -/
def stockSumSpec (s : DataFrame) : ℚ :=
  (s.rows.map (fun r => (Row.cell r "Stock_Total").toRat)).sum

/-- The ten labelled metrics of the summary sheet, in their fixed order,
each computed from the three tables passed to the call. -/
def resumenSpec (v p s : DataFrame) : DataFrame :=
  ⟨["Métrica", "Valor"],
   [[("Métrica", Value.str "Total Ventas"), ("Valor", Value.num (calcular_kpis v p).1)],
    [("Métrica", Value.str "Total Pagado"), ("Valor", Value.num (calcular_kpis v p).2.1)],
    [("Métrica", Value.str "Pendiente por Cobrar"),
     ("Valor", Value.num (calcular_kpis v p).2.2)],
    [("Métrica", Value.str "Productos Únicos"),
     ("Valor", Value.num (if v.rows.isEmpty then 0 else nUniqueSpec v "Producto"))],
    [("Métrica", Value.str "Clientes Únicos"),
     ("Valor", Value.num (if v.rows.isEmpty then 0 else nUniqueSpec v "Nombre_Cliente"))],
    [("Métrica", Value.str "Transacciones de Venta"), ("Valor", Value.num v.rows.length)],
    [("Métrica", Value.str "Transacciones de Pago"), ("Valor", Value.num p.rows.length)],
    [("Métrica", Value.str "Materiales en Stock"),
     ("Valor", Value.num (if s.rows.isEmpty then 0 else stockPosSpec s))],
    [("Métrica", Value.str "Centros de Distribución"),
     ("Valor", Value.num (if s.rows.isEmpty then 0 else nUniqueSpec s "Centro"))],
    [("Métrica", Value.str "Stock Total (Unidades)"),
     ("Valor", Value.num (if s.rows.isEmpty then 0 else stockSumSpec s))]]⟩

theorem nUnique_eq (df : DataFrame) (c : String) (h : c ∈ df.cols) :
    nUnique df c = .ok (nUniqueSpec df c) := by
  simp [nUnique, DataFrame.col, h, Bind.bind, Except.bind, nUniqueSpec]

theorem gtZeroValue_eq {v : Value}
    (h : v.isNum = true ∨ v = Value.null) :
    gtZeroValue v = .ok (decide (0 < v.toRat)) := by
  rcases h with h | rfl
  · obtain ⟨q, rfl⟩ := Value.isNum_iff.mp h
    rfl
  · simp [gtZeroValue, Value.toRat]

theorem sumSeries_numnull (vs : List Value)
    (h : ∀ v ∈ vs, v.isNum = true ∨ v = Value.null) :
    sumSeries vs = .ok ((vs.map Value.toRat).sum) := by
  induction vs with
  | nil => rfl
  | cons v t ih =>
    have ht := ih (fun x hx => h x (by simp [hx]))
    rcases h v (by simp) with hv | rfl
    · obtain ⟨q, rfl⟩ := Value.isNum_iff.mp hv
      simp [sumSeries, ht, Bind.bind, Except.bind]
    · simp [sumSeries, ht, Bind.bind, Except.bind, Value.toRat]

/-- Well-formedness of the inputs for the summary sheet: the columns the
summary touches exist (whenever the guarding `df.empty` test lets the code
touch them) and stock totals are numeric or null. -/
def ResumenReady (v s : DataFrame) : Prop :=
  (¬ v.rows.isEmpty = true → "Producto" ∈ v.cols ∧ "Nombre_Cliente" ∈ v.cols) ∧
    (¬ s.rows.isEmpty = true → "Centro" ∈ s.cols ∧ "Stock_Total" ∈ s.cols ∧
      ∀ r ∈ s.rows, (Row.cell r "Stock_Total").isNum = true ∨
        Row.cell r "Stock_Total" = Value.null)

instance (v s : DataFrame) : Decidable (ResumenReady v s) := by
  unfold ResumenReady; infer_instance

theorem crear_hoja_resumen_eq_spec (v p s : DataFrame) (h : ResumenReady v s) :
    crear_hoja_resumen v p s = .ok (resumenSpec v p s) := by
  obtain ⟨hv, hs⟩ := h
  unfold crear_hoja_resumen resumenSpec
  by_cases hve : v.rows.isEmpty = true <;> by_cases hse : s.rows.isEmpty = true
  · simp [hve, hse, Bind.bind, Except.bind]
  · obtain ⟨hsc, hst, hsn⟩ := hs hse
    have hfil := filterExcept_ok (fun r => gtZeroValue (r.cell "Stock_Total"))
      (fun r => decide (0 < (Row.cell r "Stock_Total").toRat)) s.rows
      (fun r hr => gtZeroValue_eq (hsn r hr))
    have hsum := sumSeries_numnull (s.rows.map (fun r => Row.cell r "Stock_Total"))
      (by
        intro x hx
        rw [List.mem_map] at hx
        obtain ⟨r, hr, rfl⟩ := hx
        exact hsn r hr)
    simp [hve, hse, Bind.bind, Except.bind, DataFrame.col, hsc, hst,
      nUnique_eq s "Centro" hsc, hfil, hsum, stockPosSpec, stockSumSpec,
      nUniqueSpec, List.map_map, Function.comp_def]
  · obtain ⟨hvp, hvc⟩ := hv hve
    simp [hve, hse, Bind.bind, Except.bind, nUnique_eq v "Producto" hvp,
      nUnique_eq v "Nombre_Cliente" hvc]
  · obtain ⟨hvp, hvc⟩ := hv hve
    obtain ⟨hsc, hst, hsn⟩ := hs hse
    have hfil := filterExcept_ok (fun r => gtZeroValue (r.cell "Stock_Total"))
      (fun r => decide (0 < (Row.cell r "Stock_Total").toRat)) s.rows
      (fun r hr => gtZeroValue_eq (hsn r hr))
    have hsum := sumSeries_numnull (s.rows.map (fun r => Row.cell r "Stock_Total"))
      (by
        intro x hx
        rw [List.mem_map] at hx
        obtain ⟨r, hr, rfl⟩ := hx
        exact hsn r hr)
    simp [hve, hse, Bind.bind, Except.bind, DataFrame.col, hsc, hst,
      nUnique_eq v "Producto" hvp, nUnique_eq v "Nombre_Cliente" hvc,
      nUnique_eq s "Centro" hsc, hfil, hsum, stockPosSpec, stockSumSpec,
      nUniqueSpec, List.map_map, Function.comp_def]

/-- Claim C4: for input tables satisfying the summary well-formedness
conditions, `generar_reporte_excel` produces a workbook whose sheets are,
in fixed order, `Ventas`, `Pagos`, `Stock` (holding exactly the three
tables passed to the call) and, exactly when `incluir_resumen` is true, a
fourth `Resumen` sheet equal to `resumenSpec` — the ten labelled metrics in
their fixed order, each computed from the same three tables of this call. -/
theorem generar_reporte_excel_sheets (v p s : DataFrame) (incluir_resumen : Bool)
    (h : ResumenReady v s) :
    generar_reporte_excel v p s incluir_resumen =
      .ok ([("Ventas", v), ("Pagos", p), ("Stock", s)] ++
        (if incluir_resumen then [("Resumen", resumenSpec v p s)] else [])) := by
  cases incluir_resumen with
  | false => rfl
  | true =>
    simp [generar_reporte_excel, generar_reporte_excel_core,
      crear_hoja_resumen_eq_spec v p s h, Bind.bind, Except.bind]

/-- Concrete report inputs for the witness. -/
def stockEjemplo : DataFrame :=
  ⟨["Centro", "Stock_Total"],
   [[("Centro", Value.str "C1"), ("Stock_Total", Value.num 5)],
    [("Centro", Value.str "C2"), ("Stock_Total", Value.num 0)]]⟩

def ventasReporte : DataFrame :=
  ⟨["Producto", "Nombre_Cliente"],
   [[("Producto", Value.str "Laptop"), ("Nombre_Cliente", Value.str "Acme")]]⟩

theorem generar_reporte_excel_sheets_witness :
    ResumenReady ventasReporte stockEjemplo ∧
      generar_reporte_excel ventasReporte pagosEjemplo stockEjemplo true =
        .ok ([("Ventas", ventasReporte), ("Pagos", pagosEjemplo),
          ("Stock", stockEjemplo)] ++
          [("Resumen", resumenSpec ventasReporte pagosEjemplo stockEjemplo)]) :=
  ⟨by decide,
   by
    have := generar_reporte_excel_sheets ventasReporte pagosEjemplo stockEjemplo true
      (by decide)
    simpa using this⟩

/-- A cleaned sales table with three dated rows around a boundary. -/
def ventasFechas : DataFrame :=
  ⟨["Fecha_Doc"],
   [[("Fecha_Doc", Value.date 20240105)],
    [("Fecha_Doc", Value.date 20240110)],
    [("Fecha_Doc", Value.date 20240115)]]⟩

theorem fecha_filter_inclusive_witness :
    "Fecha_Doc" ∈ ventasFechas.cols ∧
      aplicar_filtros_completos ventasFechas none none none none
          (some 20240110) (some 20240110) =
        ⟨ventasFechas.cols,
         ventasFechas.rows.filter
           (fun r => inRange (Row.cell r "Fecha_Doc") (some 20240110) (some 20240110))⟩ :=
  ⟨by decide,
   fecha_filter_inclusive ventasFechas (some 20240110) (some 20240110)
     (by decide) (by decide)⟩
